import Mathlib

/-!
Verification development for the RAG backend (document ingestion and query
pipelines). Python modules are shallowly embedded as Lean functions:

* effects on the per-job log directory are modelled as an explicit association
  list from processing id to the JSON record written for it;
* Python exceptions are modelled with `Except`, keyed by the exception class
  where the surrounding code dispatches on it;
* calls into external collaborators (the download service, the LLM backends,
  the vector store, the cross-encoder) are oracle parameters, so theorems
  quantify over every behaviour of the collaborator;
* wall-clock reads (`time.time()`) are an explicit `now : Int` parameter,
  and JSON numbers are modelled as integers (they are only ever compared
  for equality here);
* Python `str` values are Lean `String`s; the string operations used by the
  source (`strip`, `replace`, `lower`, `split`, the whitespace-collapsing
  regular expression) are re-implemented structurally below so that every
  definition evaluates inside the kernel.
-/

namespace Py

/-- Character class of the regular expression r"\s" and of str.strip
(ASCII part; the embedded documents are ASCII). -/
def isSpace (c : Char) : Bool :=
  c = ' ' || c = '\t' || c = '\n' || c = '\r' || c = '\x0b' || c = '\x0c'

/-- str.strip() on the character list: drop whitespace from both ends. -/
def stripL (l : List Char) : List Char :=
  ((l.dropWhile isSpace).reverse.dropWhile isSpace).reverse

/-- Python str.strip(). -/
def strip (s : String) : String := ⟨stripL s.data⟩

/-- Does the haystack start with the needle? -/
def startsWithL : List Char → List Char → Bool
  | [], _ => true
  | _ :: _, [] => false
  | n :: ns, h :: hs => n = h && startsWithL ns hs

/-- Membership test of the Python `needle in hay` operator, on char lists. -/
def containsL (needle : List Char) : List Char → Bool
  | [] => startsWithL needle []
  | c :: rest => startsWithL needle (c :: rest) || containsL needle rest

/-- Python `needle in hay` for strings. -/
def containsSub (hay needle : String) : Bool := containsL needle.data hay.data

/-- Fuel-indexed worker for str.replace: scan left to right, replacing
non-overlapping occurrences. The fuel starts at the haystack length, which
bounds the number of steps. The source never calls replace with an empty
needle, and the worker copies the haystack unchanged in that case. -/
def replaceGo (needle repl : List Char) : Nat → List Char → List Char
  | 0, hay => hay
  | _ + 1, [] => []
  | fuel + 1, c :: rest =>
    if needle.length > 0 && startsWithL needle (c :: rest) then
      repl ++ replaceGo needle repl fuel (List.drop needle.length (c :: rest))
    else
      c :: replaceGo needle repl fuel rest

/-- Python str.replace(needle, repl) (all occurrences, left to right). -/
def pyReplace (s needle repl : String) : String :=
  ⟨replaceGo needle.data repl.data s.data.length s.data⟩

/-- Worker for re.sub(r"\s+", " ", s): each maximal whitespace run becomes one
space. The flag records whether the previous character was inside a run. -/
def collapseWsGo : Bool → List Char → List Char
  | _, [] => []
  | inRun, c :: rest =>
    if isSpace c then
      if inRun then collapseWsGo true rest else ' ' :: collapseWsGo true rest
    else
      c :: collapseWsGo false rest

/-- re.sub(r"\s+", " ", s). -/
def collapseWs (s : String) : String := ⟨collapseWsGo false s.data⟩

/-- Character class of the control-character removal regex
r"[\x00-\x08\x0b-\x0c\x0e-\x1f\x7f-\x9f]". -/
def isCtrl (c : Char) : Bool :=
  c.toNat ≤ 0x08 || (0x0b ≤ c.toNat && c.toNat ≤ 0x0c) ||
  (0x0e ≤ c.toNat && c.toNat ≤ 0x1f) || (0x7f ≤ c.toNat && c.toNat ≤ 0x9f)

/-- re.sub of the control-character class with the empty string. -/
def stripCtrl (s : String) : String := ⟨s.data.filter (fun c => !isCtrl c)⟩

/-- Python str.lower() (character-wise; enough for the ASCII messages the
source inspects). -/
def lower (s : String) : String := ⟨s.data.map Char.toLower⟩

/-- Worker for str.split("."): accumulate the current piece (reversed). -/
def splitDotGo : List Char → List Char → List String
  | acc, [] => [⟨acc.reverse⟩]
  | acc, c :: rest =>
    if c = '.' then ⟨acc.reverse⟩ :: splitDotGo [] rest else splitDotGo (c :: acc) rest

/-- Python content.split("."). -/
def splitDot (s : String) : List String := splitDotGo [] s.data

/-- Python sep.join(pieces). -/
def joinSep (sep : String) : List String → String
  | [] => ""
  | [x] => x
  | x :: y :: rest => x ++ sep ++ joinSep sep (y :: rest)

/-- Python s[:n] (leading slice by code points). -/
def pyTake (n : Nat) (s : String) : String := ⟨s.data.take n⟩

/-- First-occurrence deduplication. Python builds a set of source files and
then lists it; set iteration order is unspecified in Python, and the claims
below never depend on the order, only on the members. -/
def dedup : List String → List String
  | [] => []
  | x :: rest => x :: (dedup rest).filter (fun y => y ≠ x)

end Py

/-- JSON values as produced by json.loads / consumed by json.dump. Python
floats appearing in records (timestamps) are modelled as integers: the claims
only compare them for equality. Objects are ordered field lists, matching the
insertion-ordered dicts that json round-trips preserve. -/
inductive PyJson where
  | null
  | bool (b : Bool)
  | num (n : Int)
  | str (s : String)
  | arr (elems : List PyJson)
  | obj (fields : List (String × PyJson))

namespace PyJson

/-- Python truthiness of a decoded JSON value (None, False, 0, "", [], {}
are falsy). -/
def truthy : PyJson → Bool
  | null => false
  | bool b => b
  | num n => n ≠ 0
  | str s => s ≠ ""
  | arr l => !l.isEmpty
  | obj l => !l.isEmpty

/-- Association-list lookup for an object's field (dict indexing / dict.get
with a None default is `lookupField f k = none`). -/
def lookupField : List (String × PyJson) → String → Option PyJson
  | [], _ => none
  | (k, v) :: rest, key => if k = key then some v else lookupField rest key

/-- Dict item assignment: replace in place when the key exists (keeping its
position), append otherwise — Python dicts preserve insertion order. -/
def setField : List (String × PyJson) → String → PyJson → List (String × PyJson)
  | [], key, v => [(key, v)]
  | (k, w) :: rest, key, v =>
    if k = key then (key, v) :: rest else (k, w) :: setField rest key v

/-- dict.update(other): assign other's entries into the dict in order. -/
def updateFields (base : List (String × PyJson)) (other : List (String × PyJson)) :
    List (String × PyJson) :=
  other.foldl (fun acc kv => setField acc kv.1 kv.2) base

end PyJson

namespace LoadFromUrl

/-- The per-job log directory: the JSON record written for each processing id
(one ./logs/{processing_id}.json file per entry). -/
abbrev LogStore := List (String × PyJson)

/-- Writing ./logs/{pid}.json. -/
def writeLog (logs : LogStore) (pid : String) (record : PyJson) : LogStore :=
  PyJson.setField logs pid record

/-- Python value.get(key) on a decoded JSON value: AttributeError when the
value is not a dict, None default otherwise. -/
def jGetE (j : PyJson) (k : String) : Except String (Option PyJson) :=
  match j with
  | .obj fields => .ok (PyJson.lookupField fields k)
  | _ => .error ("AttributeError: get on non-dict for key " ++ k)

/-- Python value[key] = v on a decoded JSON value: TypeError when the value
does not support item assignment. -/
def jSetE (j : PyJson) (k : String) (v : PyJson) : Except String PyJson :=
  match j with
  | .obj fields => .ok (.obj (PyJson.setField fields k v))
  | _ => .error ("TypeError: item assignment on non-dict for key " ++ k)

/-- Condition result_json.get("data") is not None: json.loads maps a JSON
null to Python None, so both an absent key and a null value give None. -/
def dataIsNotNone (j : PyJson) : Except String Bool :=
  match jGetE j "data" with
  | .error e => .error e
  | .ok none => .ok false
  | .ok (some .null) => .ok false
  | .ok (some _) => .ok true

/-- Body of the try block of process_documents (load_from_url.py lines
141-162): await the download service, attach processing_id and timestamp
either inside data or at the top level, and produce the record to persist.
Any exception (the download call itself, or the item assignments on an
unexpected result shape) propagates to the except handler as its message. -/
def processTry (downloadResult : Except String PyJson) (processing_id timestamp : String) :
    Except String PyJson := do
  let result_json ← downloadResult
  let hasData ← dataIsNotNone result_json
  if hasData then
    match jGetE result_json "data" with
    | .error e => .error e
    | .ok none => .error "KeyError: data"
    | .ok (some dataVal) => do
      let d1 ← jSetE dataVal "processing_id" (.str processing_id)
      let d2 ← jSetE d1 "timestamp" (.str timestamp)
      jSetE result_json "data" d2
  else do
    let r1 ← jSetE result_json "processing_id" (.str processing_id)
    jSetE r1 "timestamp" (.str timestamp)

/-- Record written by the except handler of process_documents (lines 164-177). -/
def errorRecord (processing_id timestamp e : String) : PyJson :=
  .obj [("success", .bool false),
        ("message", .str "Error al procesar documentos"),
        ("data", .null),
        ("warnings", .arr []),
        ("processing_id", .str processing_id),
        ("timestamp", .str timestamp),
        ("error", .str e)]

/-- process_documents (load_from_url.py lines 118-177), the background task of
an accepted submission. `scheme` is payload.source_url.scheme; the pydantic
request model types source_url as HttpUrl, which only admits http and https.
`downloadResult` is the behaviour of download_and_process_documents: a
returned JSON value or a raised exception message. The function returns the
updated log store, or `.error` for the one path that raises out of the task
without writing anything (the pre-try scheme check, lines 135-139). -/
def process_documents (scheme : String) (downloadResult : Except String PyJson)
    (processing_id timestamp : String) (logs : LogStore) : Except String LogStore :=
  if ¬(scheme = "http" ∨ scheme = "https") then
    .error "HTTPException 404: URL debe iniciar con http o https"
  else
    match processTry downloadResult processing_id timestamp with
    | .ok record => .ok (writeLog logs processing_id record)
    | .error e => .ok (writeLog logs processing_id (errorRecord processing_id timestamp e))

/-- Invariant supplied by the request model: pydantic's HttpUrl accepts only
http and https schemes, so every accepted submission satisfies it. -/
def acceptedScheme (scheme : String) : Prop := scheme = "http" ∨ scheme = "https"

end LoadFromUrl

namespace ValidateLoad

/-- State of ./logs/{processing_id}.json as seen by the status operation:
absent (the exists() check fails), present but not decodable as JSON
(json.loads raises JSONDecodeError), or present with a decoded value. -/
inductive FileState where
  | absent
  | corrupt
  | valid (record : PyJson)

/-- Exceptions escaping validate_processing_with_rag, keyed by the classes
the router's handlers dispatch on. `generic` covers everything else (the
AttributeError family raised on unexpected record shapes). -/
inductive StatusExc where
  | fileNotFound (msg : String)
  | valueError (msg : String)
  | generic (msg : String)

/-- Python value.get(k) during the RAG enrichment: AttributeError (modelled
as a generic exception) when the value is not a dict. -/
def asFields (j : PyJson) : Except StatusExc (List (String × PyJson)) :=
  match j with
  | .obj fields => .ok fields
  | _ => .error (.generic "AttributeError: object has no attribute get")

/-- Lines 384-403 of validate_processing_with_rag: the enrichment applied to
a successfully parsed record. Only when the record is truthy in "success"
and "data" and names a collection does it merge the live RAG status into
data["rag_status"] and stamp data["rag_status"]["validated_at"] with the
clock reading. -/
def processRecord (rag_status : PyJson → List (String × PyJson)) (now : Int)
    (data : PyJson) : Except StatusExc PyJson :=
  match asFields data with
  | .error e => .error e
  | .ok fields =>
    if ((PyJson.lookupField fields "success").getD .null).truthy &&
       ((PyJson.lookupField fields "data").getD .null).truthy then
      match asFields ((PyJson.lookupField fields "data").getD .null) with
      | .error e => .error e
      | .ok dataFields =>
        match asFields ((PyJson.lookupField dataFields "collection_info").getD (.obj [])) with
        | .error e => .error e
        | .ok ciFields =>
          if ((PyJson.lookupField ciFields "name").getD .null).truthy then
            match asFields ((PyJson.lookupField dataFields "rag_status").getD (.obj [])) with
            | .error e => .error e
            | .ok rsFields =>
              .ok (.obj (PyJson.setField fields "data" (.obj (PyJson.setField dataFields
                "rag_status" (.obj (PyJson.setField
                  (PyJson.updateFields rsFields
                    (rag_status ((PyJson.lookupField ciFields "name").getD .null)))
                  "validated_at" (.num now)))))))
          else
            .ok data
    else
      .ok data

/-- validate_processing_with_rag (load_documents_service.py lines 346-403).
`store` is the log directory; `rag_status` is the behaviour of
get_rag_status, which never raises (it converts its own failures into an
error dict) and always returns a dict; `now` is the time.time() reading.
Reads and parses the record, then applies the enrichment above. -/
def validate_processing_with_rag (store : String → FileState)
    (rag_status : PyJson → List (String × PyJson)) (now : Int)
    (processing_id : String) : Except StatusExc PyJson :=
  match store processing_id with
  | .absent => .error (.fileNotFound ("No existe ./logs/" ++ processing_id ++ ".json"))
  | .corrupt => .error (.valueError "Archivo JSON corrupto")
  | .valid data => processRecord rag_status now data

/-- HTTP outcome of the status endpoint. -/
inductive HttpOut where
  | ok (body : PyJson)
  | err (code : Nat) (detail : String)

/-- validate_load (validate_load.py lines 69-143): reject empty or
whitespace-only ids with 400, then map the service call's exceptions:
FileNotFoundError to 404, ValueError to 422, anything else to 500. -/
def validate_load (store : String → FileState)
    (rag_status : PyJson → List (String × PyJson)) (now : Int)
    (processing_id : String) : HttpOut :=
  if processing_id = "" ∨ Py.strip processing_id = "" then
    .err 400 "El processing_id es requerido"
  else
    match validate_processing_with_rag store rag_status now processing_id with
    | .ok data => .ok data
    | .error (.fileNotFound _) => .err 404 "El processing_id no existe"
    | .error (.valueError m) => .err 422 m
    | .error (.generic m) => .err 500 ("Error al validar el processing_id: " ++ m)

/-- HTTP status code of an outcome (200 for a returned body). -/
def httpCode : HttpOut → Nat
  | .ok _ => 200
  | .err c _ => c

/-- Condition under which validate_processing_with_rag enriches the record
(and hence reads the clock and the live RAG status): the record is a dict,
truthy in "success" and "data", and data["data"] leads to a truthy
collection name through dict-shaped values. Mirrors the branch structure of
the source exactly. -/
def enriches (data : PyJson) : Bool :=
  match data with
  | .obj fields =>
    ((PyJson.lookupField fields "success").getD .null).truthy &&
    ((PyJson.lookupField fields "data").getD .null).truthy &&
    (match (PyJson.lookupField fields "data").getD .null with
     | .obj dataFields =>
       (match (PyJson.lookupField dataFields "collection_info").getD (.obj []) with
        | .obj ciFields => ((PyJson.lookupField ciFields "name").getD .null).truthy
        | _ => false)
     | _ => false)
  | _ => false

/-- A minimal terminal success record, of the shape process_documents writes
for a completed ingestion (truthy success, data naming a collection). -/
def successRecord : PyJson :=
  .obj [("success", .bool true),
        ("data", .obj [("collection_info", .obj [("name", .str "col")])])]

/-- A log directory holding exactly one record, for the job id proc_demo,
unchanged between any two reads. -/
def demoStore : String → FileState :=
  fun pid => if pid = "proc_demo" then .valid successRecord else .absent

/-- The validated_at stamp inside a status response's body, when present. -/
def validatedAtOf (out : HttpOut) : Option Int :=
  match out with
  | .ok (.obj fields) =>
    match PyJson.lookupField fields "data" with
    | some (.obj dataFields) =>
      match PyJson.lookupField dataFields "rag_status" with
      | some (.obj rsFields) =>
        match PyJson.lookupField rsFields "validated_at" with
        | some (.num n) => some n
        | _ => none
      | _ => none
    | _ => none
  | _ => none

end ValidateLoad

namespace Chunking

/-- ChunkingStrategy enum (chunking_service.py lines 34-40). -/
inductive ChunkingStrategy where
  | recursive_character
  | fixed_size
  | semantic
  | document_structure
  | linguistic_units
deriving DecidableEq

/-- Constructor parameters of ChunkingService that splitter selection reads
(chunking_service.py lines 55-127), with the source's defaults. -/
structure ChunkingConfig where
  chunk_size : Nat := 1000
  chunk_overlap : Nat := 200
  separators : List String := ["\n\n", "\n", " ", ""]
  breakpoint_threshold_type : String := "percentile"
  breakpoint_threshold_amount : Nat := 95
  semantic_embeddings_model : String := "models/embedding-001"
  fixed_size_separators : List String := ["\n\n", "\n", " ", ""]
  fixed_size_keep_separator : Bool := true
  fixed_size_strip_whitespace : Bool := true
deriving DecidableEq

/-- The splitter object a ChunkingService builds: the constructor that was
called and the arguments passed to it. RecursiveCharacterTextSplitter's
keep_separator and strip_whitespace default to true in langchain when not
passed explicitly. -/
inductive Splitter where
  | recursiveCharacterTextSplitter (chunk_size chunk_overlap : Nat)
      (separators : List String) (keep_separator strip_whitespace : Bool)
  | semanticChunker (embeddings_model breakpoint_threshold_type : String)
      (breakpoint_threshold_amount : Nat)
deriving DecidableEq

/-- _create_recursive_character_splitter (lines 150-163): chunk_size,
chunk_overlap and the basic separators; langchain defaults for the rest. -/
def _create_recursive_character_splitter (cfg : ChunkingConfig) : Splitter :=
  .recursiveCharacterTextSplitter cfg.chunk_size cfg.chunk_overlap cfg.separators true true

/-- _create_fixed_size_splitter (lines 197-225): same constructor but driven
by the fixed_size_* parameters. -/
def _create_fixed_size_splitter (cfg : ChunkingConfig) : Splitter :=
  .recursiveCharacterTextSplitter cfg.chunk_size cfg.chunk_overlap
    cfg.fixed_size_separators cfg.fixed_size_keep_separator cfg.fixed_size_strip_whitespace

/-- _create_semantic_splitter (lines 165-195). -/
def _create_semantic_splitter (cfg : ChunkingConfig) : Splitter :=
  .semanticChunker cfg.semantic_embeddings_model cfg.breakpoint_threshold_type
    cfg.breakpoint_threshold_amount

/-- _create_splitter (lines 133-148): dispatch on the strategy; the final
else branch is the fallback for the strategies with no implementation
(document_structure, linguistic_units). -/
def _create_splitter (cfg : ChunkingConfig) (strategy : ChunkingStrategy) : Splitter :=
  if strategy = .recursive_character then
    _create_recursive_character_splitter cfg
  else if strategy = .semantic then
    _create_semantic_splitter cfg
  else if strategy = .fixed_size then
    _create_fixed_size_splitter cfg
  else
    _create_recursive_character_splitter cfg

/-- strategy_map.get(name, ChunkingStrategy.RECURSIVE_CHARACTER) from
load_documents_service.py lines 213-223: how a strategy name chosen by the
caller becomes an enum member; unknown names fall back to
recursive_character. -/
def strategyFromName (name : String) : ChunkingStrategy :=
  if name = "recursive_character" then .recursive_character
  else if name = "fixed_size" then .fixed_size
  else if name = "semantic" then .semantic
  else if name = "document_structure" then .document_structure
  else if name = "linguistic_units" then .linguistic_units
  else .recursive_character

end Chunking

/-- Values stored in a langchain Document's metadata dict by this code base
(strings, ints — rerank scores are modelled as integers — and booleans). -/
inductive MVal where
  | s (v : String)
  | i (v : Int)
  | b (v : Bool)
deriving DecidableEq

/-- langchain Document: page content plus an insertion-ordered metadata
dict. -/
structure Document where
  page_content : String
  metadata : List (String × MVal)
deriving DecidableEq

namespace Document

/-- Metadata item assignment (replace keeping position, else append). -/
def setMeta : List (String × MVal) → String → MVal → List (String × MVal)
  | [], key, v => [(key, v)]
  | (k, w) :: rest, key, v =>
    if k = key then (key, v) :: rest else (k, w) :: setMeta rest key v

/-- Metadata lookup (dict.get with a None default). -/
def getMeta (doc : Document) (key : String) : Option MVal :=
  match doc.metadata.find? (fun kv => kv.1 = key) with
  | some kv => some kv.2
  | none => none

/-- doc.metadata.get(key, default) when the caller expects a string. -/
def metaStrD (doc : Document) (key : String) (default : String) : String :=
  match doc.getMeta key with
  | some (.s v) => v
  | _ => default

/-- The integer stored under a metadata key, if one is. -/
def metaInt (doc : Document) (key : String) : Option Int :=
  match doc.getMeta key with
  | some (.i v) => some v
  | _ => none

end Document

namespace Retrieval

/-- Insert one scored document into an already descending-sorted list,
passing every element with a score greater than or equal to its own. -/
def insertDesc (x : Document × Int) : List (Document × Int) → List (Document × Int)
  | [] => [x]
  | y :: ys => if x.2 ≤ y.2 then y :: insertDesc x ys else x :: y :: ys

/-- Stable descending sort by score: Python's list.sort(key=score,
reverse=True) is stable (ties keep their original order), and a stable sort's
output is determined by the comparator alone, so this insertion sort computes
exactly the list the source produces. -/
def sortDesc (l : List (Document × Int)) : List (Document × Int) :=
  l.foldl (fun acc x => insertDesc x acc) []

/-- The enumerated loop of rerank_documents lines 410-414: write
rerank_score and the 1-based rerank_position into each kept document's
metadata. -/
def attachScores : Nat → List (Document × Int) → List Document
  | _, [] => []
  | i, (doc, score) :: rest =>
    { doc with
      metadata := Document.setMeta
        (Document.setMeta doc.metadata "rerank_score" (.i score))
        "rerank_position" (.i (i + 1)) } :: attachScores (i + 1) rest

/-- rerank_documents (retrieval_service.py lines 350-427). `crossEncoder` is
the cross-encoder's score function when sentence_transformers imports and
the model loads; `none` is the ImportError / load-failure path, which
returns documents[:top_n] untouched. The returned flag records whether the
underlying model was instantiated and its predict called: in the success
path the source constructs the CrossEncoder and calls predict(pairs) before
any inspection of the candidate list, so the flag is true even for an empty
candidate list (predict then runs on an empty batch). -/
def rerank_documents (crossEncoder : Option (String → String → Int)) (query : String)
    (documents : List Document) (top_n : Nat) : List Document × Bool :=
  match crossEncoder with
  | none => (documents.take top_n, false)
  | some predict =>
    let pairs := documents.map (fun doc => (query, doc.page_content))
    let scores := pairs.map (fun p => predict p.1 p.2)
    let doc_score_pairs := documents.zip scores
    let sorted := sortDesc doc_score_pairs
    (attachScores 0 (sorted.take top_n), true)

/-- The rerank_score an output document carries (0 when absent; every
document produced by the success path carries one). -/
def rerankScoreOf (doc : Document) : Int := (doc.metaInt "rerank_score").getD 0

end Retrieval

namespace Generation

/-- The mutable fields of a GenerationService that generate_response reads
or writes: whether the instance is pinned to the local model, and whether a
Google AI client was constructed (self.llm is not None). -/
structure GenState where
  use_local : Bool
  llm : Bool
deriving DecidableEq

/-- The dict generate_response returns (both services use the same shape). -/
structure GenResultDict where
  answer : String
  sources : List String
  context : List Document
  context_length : Nat
  answer_length : Nat
deriving DecidableEq

/-- One call's outcome: the returned dict, the service state afterwards
(use_local may flip on the quota fallback), and which backends were
invoked. -/
structure GenRun where
  result : GenResultDict
  state : GenState
  primaryInvoked : Bool
  localInvoked : Bool
deriving DecidableEq

/-- The source files the documents came from: each loop adds
metadata.get('source_file', f'documento_{i+1}') to a set. Modelled as a
first-occurrence list; Python's set iteration order is unspecified and no
claim depends on it. -/
def sourcesOf (retrieved_docs : List Document) : List String :=
  Py.dedup ((retrieved_docs.zip (List.range retrieved_docs.length)).map
    (fun di => di.1.metaStrD "source_file" ("documento_" ++ toString (di.2 + 1))))

/-- LocalGenerationService.generate_response (generation_service_local.py
lines 51-125): purely extractive — it never touches the loaded pipeline.
Builds the context block, collects up to three leading sentences longer
than 20 characters across the documents, and formats one of two template
answers. -/
def localGenerate (question : String) (retrieved_docs : List Document) : GenResultDict :=
  let sources := sourcesOf retrieved_docs
  let context_parts := (retrieved_docs.zip (List.range retrieved_docs.length)).map
    (fun di => "--- Documento " ++ toString (di.2 + 1) ++ " (" ++
      di.1.metaStrD "source_file" ("documento_" ++ toString (di.2 + 1)) ++ ") ---\n" ++
      di.1.page_content ++ "\n")
  let context := Py.joinSep "\n" context_parts
  let context_sentences := retrieved_docs.flatMap (fun doc =>
    (((Py.splitDot doc.page_content).take 3).map Py.strip).filter
      (fun s => s.length > 20))
  let answer :=
    if !context_sentences.isEmpty then
      let relevant_sentences := context_sentences.take 3
      let context_summary := Py.joinSep ". " relevant_sentences
      "Basándome en los documentos " ++ Py.joinSep ", " sources ++
      ", puedo proporcionar la siguiente información relevante: " ++ context_summary ++
      ". Los documentos contienen información detallada que puede ser útil para responder a su pregunta."
    else
      "Basándome en los documentos " ++ Py.joinSep ", " sources ++
      ", puedo proporcionar información relevante sobre el tema consultado. Los documentos contienen información detallada que puede ser útil para responder a su pregunta."
  { answer := answer, sources := sources, context := retrieved_docs,
    context_length := context.length, answer_length := answer.length }

/-- Cleaning applied to each document's content (generation_service.py lines
166-178): quote replacement, newline normalisation, whitespace collapsing,
control-character removal, in source order. -/
def cleanContent (content : String) : String :=
  let c1 := Py.pyReplace (Py.pyReplace content "\"" "'") "\"\"\"" "'''"
  let c2 := Py.pyReplace (Py.pyReplace (Py.pyReplace c1 "\r\n" " ") "\r" " ") "\n" " "
  Py.stripCtrl (Py.collapseWs c2)

/-- The CONTEXTO block (lines 158-192): per-document labelled parts joined
with ". ", then stripped, de-newlined and collapsed once more. -/
def contextOf (retrieved_docs : List Document) : String :=
  let context_parts := (retrieved_docs.zip (List.range retrieved_docs.length)).map
    (fun di => "Documento " ++ toString (di.2 + 1) ++ " - " ++
      di.1.metaStrD "source_file" ("documento_" ++ toString (di.2 + 1)) ++ ": " ++
      cleanContent di.1.page_content)
  let context := Py.strip (Py.joinSep ". " context_parts)
  Py.collapseWs (Py.pyReplace (Py.pyReplace context "\n" " ") "\r" " ")

/-- The plain-text prompt sent to the Google model (lines 205-220),
including the final newline normalisation, collapse and strip. -/
def full_message (question : String) (retrieved_docs : List Document) : String :=
  let m :=
    "Eres un asistente especializado en responder preguntas basándote únicamente en el contexto proporcionado. " ++
    "CONTEXTO: " ++ contextOf retrieved_docs ++ " " ++
    "PREGUNTA: " ++ question ++ " " ++
    "INSTRUCCIONES: " ++
    "1. Responde la pregunta usando SOLO la información del contexto proporcionado. " ++
    "2. Si el contexto no contiene información suficiente para responder, di claramente: No tengo información suficiente en los documentos para responder esta pregunta. " ++
    "3. Mantén tu respuesta concisa y directa. " ++
    "4. Si mencionas información específica, indica de qué documento proviene. " ++
    "5. No inventes información que no esté en el contexto. " ++
    "RESPUESTA:"
  Py.strip (Py.collapseWs (Py.pyReplace (Py.pyReplace (Py.pyReplace m "\r\n" " ") "\r" " ") "\n" " "))

/-- The error dict returned by the outermost except handler (lines 280-288). -/
def genErrorDict (msg : String) (retrieved_docs : List Document) : GenResultDict :=
  { answer := "Error generando respuesta: " ++ msg, sources := [],
    context := retrieved_docs, context_length := 0, answer_length := 0 }

/-- The except-Exception handler around the Google invoke (lines 267-278):
quota or 429 in the message switches the instance to the local model and
answers with it; anything else re-raises into the outer handler, which
returns the structured error dict with the state untouched. -/
def handleGenExc (st : GenState) (question : String) (retrieved_docs : List Document)
    (msg : String) : GenRun :=
  if Py.containsSub (Py.lower msg) "quota" || Py.containsSub msg "429" then
    { result := localGenerate question retrieved_docs,
      state := { st with use_local := true }, primaryInvoked := true, localInvoked := true }
  else
    { result := genErrorDict msg retrieved_docs, state := st,
      primaryInvoked := true, localInvoked := false }

/-- GenerationService.generate_response (generation_service.py lines
125-288). `primary` is the behaviour of self.llm.invoke on the prompt: the
response's content string, or a raised exception's message. The local
extractive strategy is embedded above. An empty or whitespace-only content
string raises ValueError("Google AI devolvió respuesta vacía") (line 248),
which the quota check then inspects like any other exception. -/
def generate_response (primary : String → Except String String) (st : GenState)
    (question : String) (retrieved_docs : List Document) : GenRun :=
  if st.use_local || !st.llm then
    { result := localGenerate question retrieved_docs, state := st,
      primaryInvoked := false, localInvoked := true }
  else
    match primary (full_message question retrieved_docs) with
    | .ok answer =>
      if Py.strip answer = "" then
        handleGenExc st question retrieved_docs "Google AI devolvió respuesta vacía"
      else
        { result := { answer := answer, sources := sourcesOf retrieved_docs,
                      context := retrieved_docs,
                      context_length := (contextOf retrieved_docs).length,
                      answer_length := answer.length },
          state := st, primaryInvoked := true, localInvoked := false }
    | .error msg => handleGenExc st question retrieved_docs msg

end Generation

namespace Ask

/-- What basic_rag_processing consumes from the generation result (ask.py
lines 131-137, 162). -/
structure GenOut where
  answer : String
  sources : List String
deriving DecidableEq

/-- The collaborators basic_rag_processing calls, as oracles over every
behaviour: constructing the three services (init), rewrite_query (which
catches internally and never raises), similarity_search on
(query, collection, k), rerank_documents on (query, documents, top_n), and
generate_response on (question, documents). Each call may raise, carrying
the exception's message. -/
structure RagOracles where
  init : Except String Unit
  rewrite_query : String → String
  similarity_search : String → String → Int → Except String (List Document)
  rerank_documents : String → List Document → Int → Except String (List Document)
  generate_response : String → List Document → Except String GenOut

/-- One entry of the response's context_docs list (ask.py lines 140-154). -/
structure ContextDoc where
  file_name : String
  chunk_type : String
  snippet : String
  content : String
  priority : String
  rerank_score : Option Int
deriving DecidableEq

/-- The structured body basic_rag_processing returns (response_time_sec, a
wall-clock reading no claim mentions, is not tracked). -/
structure RagResponse where
  question : String
  final_query : String
  answer : String
  collection : String
  files_consulted : List String
  context_docs : List ContextDoc
  reranker_used : Bool
  query_rewriting_used : Bool
deriving DecidableEq

/-- Instrumentation of one basic_rag_processing run: the argument of every
similarity_search call, the question argument of every generate_response
call, and the message of the exception its except handler caught, if any. -/
structure RagTrace where
  searchQueries : List String
  genQuestions : List String
  caught : Option String
deriving DecidableEq

/-- A run: the response together with its trace. -/
structure RagRun where
  response : RagResponse
  trace : RagTrace
deriving DecidableEq

/-- The except handler of basic_rag_processing (ask.py lines 171-187). -/
def ragErrorRun (question collection : String) (use_reranking use_query_rewriting : Bool)
    (searchQs genQs : List String) (msg : String) : RagRun :=
  { response := { question := question, final_query := question,
                  answer := "Error procesando la consulta: " ++ msg,
                  collection := if collection = "" then "default" else collection,
                  files_consulted := [], context_docs := [],
                  reranker_used := use_reranking,
                  query_rewriting_used := use_query_rewriting },
    trace := { searchQueries := searchQs, genQuestions := genQs, caught := some msg } }

/-- Building context_docs (ask.py lines 140-154): the first document is
"high" priority, the rest "medium"; rerank_score is copied when present in
the metadata. -/
def buildContextDocs (docs : List Document) : List ContextDoc :=
  (docs.zip (List.range docs.length)).map (fun di =>
    { file_name := di.1.metaStrD "source_file" "unknown",
      chunk_type := di.1.metaStrD "chunking_strategy" "unknown",
      snippet := Py.pyTake 200 di.1.page_content,
      content := di.1.page_content,
      priority := if di.2 = 0 then "high" else "medium",
      rerank_score := di.1.metaInt "rerank_score" })

/-- basic_rag_processing (ask.py lines 46-187): rewrite when asked, search
with the final query, short-circuit on an empty candidate list, optionally
rerank, generate with the original question, and fold any raised exception
into the structured error body. -/
def basic_rag_processing (o : RagOracles) (question : String) (top_k : Int)
    (collection : String) (force_rebuild use_reranking use_query_rewriting : Bool) : RagRun :=
  match o.init with
  | .error m => ragErrorRun question collection use_reranking use_query_rewriting [] [] m
  | .ok _ =>
    let collection_name := if collection = "" then "default" else collection
    let final_query := if use_query_rewriting then o.rewrite_query question else question
    match o.similarity_search final_query collection_name top_k with
    | .error m =>
      ragErrorRun question collection use_reranking use_query_rewriting [final_query] [] m
    | .ok retrieved_docs =>
      if retrieved_docs.isEmpty then
        { response := { question := question, final_query := final_query,
                        answer := "No tengo información suficiente en la base de datos para responder a esta pregunta.",
                        collection := collection_name, files_consulted := [],
                        context_docs := [], reranker_used := false,
                        query_rewriting_used := use_query_rewriting },
          trace := { searchQueries := [final_query], genQuestions := [], caught := none } }
      else
        let rerankStep : Except String (List Document × Bool) :=
          if use_reranking then
            (o.rerank_documents final_query retrieved_docs top_k).map (fun docs => (docs, true))
          else
            .ok (retrieved_docs, false)
        match rerankStep with
        | .error m =>
          ragErrorRun question collection use_reranking use_query_rewriting [final_query] [] m
        | .ok (docs2, reranker_used) =>
          match o.generate_response question docs2 with
          | .error m =>
            ragErrorRun question collection use_reranking use_query_rewriting
              [final_query] [question] m
          | .ok gen =>
            { response := { question := question, final_query := final_query,
                            answer := gen.answer, collection := collection_name,
                            files_consulted := gen.sources,
                            context_docs := buildContextDocs docs2,
                            reranker_used := reranker_used,
                            query_rewriting_used := use_query_rewriting },
              trace := { searchQueries := [final_query], genQuestions := [question],
                         caught := none } }

/-- AskRequest (models/ask.py lines 12-38): question is the only required
field; none of the optional fields carries a validator — in particular
top_k has no positivity constraint. -/
structure AskRequest where
  question : String
  top_k : Option Int := some 5
  collection : Option String := none
  force_rebuild : Option Bool := some false
  use_reranking : Option Bool := some false
  use_query_rewriting : Option Bool := some false

/-- Python `x or default` for an optional int: None and 0 are falsy. -/
def pyOrInt (v : Option Int) (default : Int) : Int :=
  match v with
  | none => default
  | some n => if n = 0 then default else n

/-- Python `x or default` for an optional string: None and "" are falsy. -/
def pyOrStr (v : Option String) (default : String) : String :=
  match v with
  | none => default
  | some s => if s = "" then default else s

/-- Python `x or default` for an optional bool: None and False are falsy. -/
def pyOrBool (v : Option Bool) (default : Bool) : Bool :=
  match v with
  | none => default
  | some b => if b then b else default

/-- Outcome of the /ask endpoint. `ok` carries the instrumented run whose
response field is the HTTP 200 body; serverError mirrors the endpoint's
except handler (ask.py lines 239-244), kept in the type so theorems can
state it is never produced. -/
inductive AskResult where
  | badRequest (detail : String)
  | serverError (detail : String)
  | ok (run : RagRun)
deriving DecidableEq

/-- The /ask endpoint (ask.py lines 194-244): reject an empty or
whitespace-only question with 400, then run the pipeline on the stripped
question with Python `or` defaulting applied to every optional field. -/
def ask (o : RagOracles) (payload : AskRequest) : AskResult :=
  if payload.question = "" ∨ Py.strip payload.question = "" then
    .badRequest "La pregunta es requerida y no puede estar vacía"
  else
    .ok (basic_rag_processing o (Py.strip payload.question)
      (pyOrInt payload.top_k 5) (pyOrStr payload.collection "default")
      (pyOrBool payload.force_rebuild false) (pyOrBool payload.use_reranking false)
      (pyOrBool payload.use_query_rewriting false))

/-- Concrete collaborator behaviours for evaluating the pipeline on closed
inputs: services construct, rewriting is the identity, retrieval finds
nothing, reranking and generation succeed trivially. -/
def demoOracles : RagOracles :=
  { init := .ok (),
    rewrite_query := fun q => q,
    similarity_search := fun _ _ _ => .ok [],
    rerank_documents := fun _ docs _ => .ok docs,
    generate_response := fun _ _ => .ok { answer := "ans", sources := [] } }

/-- Concrete collaborator behaviours whose service initialization raises. -/
def failingInitOracles : RagOracles :=
  { demoOracles with init := .error "boom" }

end Ask

namespace Chunking

/-- A ChunkingService configuration that turns off the fixed-size strategy's
keep_separator option, so the fixed-size splitter and the recursive-character
splitter are observably different objects. -/
def cfgDemo : ChunkingConfig := { fixed_size_keep_separator := false }

end Chunking

namespace Generation

/-- A retrieved chunk used for closed evaluations. -/
def docDemo : Document :=
  { page_content := "contenido de prueba", metadata := [("source_file", .s "a.pdf")] }

end Generation

/-! Theorems. Helper lemmas come first; each claim is then settled by one
theorem (with a witness when it carries hypotheses), and each refuted claim
additionally by a closed counterexample. -/

namespace PyJson

theorem lookupField_setField_self (l : List (String × PyJson)) (k : String) (v : PyJson) :
    lookupField (setField l k v) k = some v := by
  induction l with
  | nil => simp [setField, lookupField]
  | cons kv rest ih =>
    by_cases h : kv.1 = k
    · obtain ⟨k1, v1⟩ := kv
      simp only at h
      simp [setField, h, lookupField]
    · obtain ⟨k1, v1⟩ := kv
      simp only at h
      simp [setField, h, lookupField, ih]

end PyJson

namespace LoadFromUrl

/-- Claim C1: for every accepted ingestion submission (pydantic's HttpUrl
guarantees an http or https scheme), the background task process_documents
terminates normally and the final log store holds a record under the
processing id — both when the download-and-process call returns and when it
raises, i.e. on the happy and the unhappy path. -/
theorem process_documents_always_persists (scheme : String)
    (downloadResult : Except String PyJson) (processing_id timestamp : String)
    (logs : LogStore) (h : acceptedScheme scheme) :
    ∃ logs2, process_documents scheme downloadResult processing_id timestamp logs = .ok logs2 ∧
      (PyJson.lookupField logs2 processing_id).isSome := by
  unfold process_documents
  have h2 : ¬¬(scheme = "http" ∨ scheme = "https") := not_not_intro h
  rw [if_neg h2]
  cases hp : processTry downloadResult processing_id timestamp with
  | ok record =>
    exact ⟨_, rfl, by rw [writeLog, PyJson.lookupField_setField_self]; rfl⟩
  | error e =>
    exact ⟨_, rfl, by rw [writeLog, PyJson.lookupField_setField_self]; rfl⟩

/-- Witness for C1: a concrete accepted submission whose download call
raises still gets its record persisted. -/
theorem process_documents_always_persists_witness :
    ∃ logs2, process_documents "http" (.error "ConnectError") "proc_w" "t0" [] = .ok logs2 ∧
      (PyJson.lookupField logs2 "proc_w").isSome :=
  process_documents_always_persists "http" (.error "ConnectError") "proc_w" "t0" []
    (Or.inl rfl)

end LoadFromUrl

namespace Chunking

/-- Counterexample for C9: with a configuration that sets the fixed-size
strategy's keep_separator to false, the splitter selected for the
unavailable document_structure strategy is not the fixed-size splitter —
the fallback builds the recursive-character splitter instead. -/
theorem create_splitter_fallback_differs_from_fixed_size :
    _create_splitter cfgDemo .document_structure ≠ _create_fixed_size_splitter cfgDemo := by
  decide

/-- Claim C9 (amended): for every configuration and every strategy name that
is unknown or whose strategy has no implementation, splitter selection falls
back to the recursive-character splitter (not the fixed-size one) rather
than failing: strategy_map sends unknown names to RECURSIVE_CHARACTER, and
_create_splitter's else branch builds the recursive-character splitter for
the unimplemented members. -/
theorem create_splitter_fallback_recursive (cfg : ChunkingConfig) (name : String)
    (h1 : name ≠ "recursive_character") (h2 : name ≠ "fixed_size") (h3 : name ≠ "semantic") :
    _create_splitter cfg (strategyFromName name) = _create_recursive_character_splitter cfg := by
  unfold strategyFromName
  rw [if_neg h1, if_neg h2, if_neg h3]
  by_cases h4 : name = "document_structure"
  · rw [if_pos h4]; rfl
  · rw [if_neg h4]
    by_cases h5 : name = "linguistic_units"
    · rw [if_pos h5]; rfl
    · rw [if_neg h5]; rfl

/-- Witness for C9: the unavailable document_structure strategy selects the
recursive-character splitter under the default configuration. -/
theorem create_splitter_fallback_recursive_witness :
    _create_splitter {} (strategyFromName "document_structure") =
      _create_recursive_character_splitter {} :=
  create_splitter_fallback_recursive {} "document_structure"
    (by decide) (by decide) (by decide)

end Chunking

namespace Retrieval

theorem mem_insertDesc {z x : Document × Int} {l : List (Document × Int)}
    (h : z ∈ insertDesc x l) : z = x ∨ z ∈ l := by
  induction l with
  | nil => simpa [insertDesc] using h
  | cons y ys ih =>
    rw [insertDesc] at h
    by_cases hxy : x.2 ≤ y.2
    · rw [if_pos hxy] at h
      rcases List.mem_cons.mp h with rfl | h2
      · exact Or.inr (List.mem_cons_self _ _)
      · rcases ih h2 with rfl | h3
        · exact Or.inl rfl
        · exact Or.inr (List.mem_cons_of_mem _ h3)
    · rw [if_neg hxy] at h
      rcases List.mem_cons.mp h with rfl | h2
      · exact Or.inl rfl
      · exact Or.inr h2

theorem insertDesc_pairwise (x : Document × Int) (l : List (Document × Int))
    (h : l.Pairwise (fun a b => b.2 ≤ a.2)) :
    (insertDesc x l).Pairwise (fun a b => b.2 ≤ a.2) := by
  induction l with
  | nil => simp [insertDesc]
  | cons y ys ih =>
    rcases List.pairwise_cons.mp h with ⟨hy, hys⟩
    by_cases hxy : x.2 ≤ y.2
    · rw [insertDesc, if_pos hxy]
      refine List.pairwise_cons.mpr ⟨?_, ih hys⟩
      intro z hz
      rcases mem_insertDesc hz with rfl | hzys
      · exact hxy
      · exact hy z hzys
    · rw [insertDesc, if_neg hxy]
      push_neg at hxy
      refine List.pairwise_cons.mpr ⟨?_, h⟩
      intro z hz
      rcases List.mem_cons.mp hz with rfl | hzys
      · exact le_of_lt hxy
      · exact le_trans (hy z hzys) (le_of_lt hxy)

theorem sortDesc_pairwise (l : List (Document × Int)) :
    (sortDesc l).Pairwise (fun a b => b.2 ≤ a.2) := by
  suffices h : ∀ acc : List (Document × Int), acc.Pairwise (fun a b => b.2 ≤ a.2) →
      (l.foldl (fun acc x => insertDesc x acc) acc).Pairwise (fun a b => b.2 ≤ a.2) by
    exact h [] (by simp)
  induction l with
  | nil => intro acc hacc; simpa using hacc
  | cons x xs ih => intro acc hacc; exact ih _ (insertDesc_pairwise x acc hacc)

theorem insertDesc_length (x : Document × Int) (l : List (Document × Int)) :
    (insertDesc x l).length = l.length + 1 := by
  induction l with
  | nil => rfl
  | cons y ys ih =>
    rw [insertDesc]
    by_cases hxy : x.2 ≤ y.2
    · rw [if_pos hxy]; simp [ih]
    · rw [if_neg hxy]; simp

theorem sortDesc_length (l : List (Document × Int)) : (sortDesc l).length = l.length := by
  suffices h : ∀ acc : List (Document × Int),
      (l.foldl (fun acc x => insertDesc x acc) acc).length = acc.length + l.length by
    simpa using h []
  induction l with
  | nil => intro acc; simp
  | cons x xs ih =>
    intro acc
    simp only [List.foldl_cons, ih, insertDesc_length, List.length_cons]
    omega

theorem find_setMeta_self (m : List (String × MVal)) (k : String) (v : MVal) :
    (Document.setMeta m k v).find? (fun kv => kv.1 = k) = some (k, v) := by
  induction m with
  | nil => simp [Document.setMeta]
  | cons kv rest ih =>
    obtain ⟨k1, v1⟩ := kv
    by_cases h : k1 = k
    · simp [Document.setMeta, h]
    · simp [Document.setMeta, h, ih]

theorem find_setMeta_other (m : List (String × MVal)) (k k2 : String) (v : MVal)
    (h : k ≠ k2) :
    (Document.setMeta m k v).find? (fun kv => kv.1 = k2) = m.find? (fun kv => kv.1 = k2) := by
  induction m with
  | nil => simp [Document.setMeta, h]
  | cons kv rest ih =>
    obtain ⟨k1, v1⟩ := kv
    by_cases h1 : k1 = k
    · subst h1
      simp [Document.setMeta, h]
    · by_cases h2 : k1 = k2
      · subst h2
        simp [Document.setMeta, h1]
      · simp [Document.setMeta, h1, h2, ih]

theorem metaInt_attach (doc : Document) (s : Int) (p : MVal) :
    Document.metaInt
      (Document.mk doc.page_content
        (Document.setMeta (Document.setMeta doc.metadata "rerank_score" (.i s)) "rerank_position" p))
      "rerank_score" = some s := by
  unfold Document.metaInt Document.getMeta
  rw [find_setMeta_other _ _ _ _ (by decide), find_setMeta_self]

theorem rerankScoreOf_attach (doc : Document) (s : Int) (p : MVal) :
    rerankScoreOf
      (Document.mk doc.page_content
        (Document.setMeta (Document.setMeta doc.metadata "rerank_score" (.i s)) "rerank_position" p)) = s := by
  unfold rerankScoreOf
  rw [metaInt_attach]
  rfl

theorem mem_attachScores {d : Document} {i : Nat} {l : List (Document × Int)}
    (h : d ∈ attachScores i l) :
    ∃ p ∈ l, Document.metaInt d "rerank_score" = some p.2 := by
  induction l generalizing i with
  | nil => simpa [attachScores] using h
  | cons x xs ih =>
    obtain ⟨doc, s⟩ := x
    rw [attachScores] at h
    rcases List.mem_cons.mp h with rfl | h2
    · exact ⟨(doc, s), List.mem_cons_self _ _, metaInt_attach doc s _⟩
    · obtain ⟨p, hp, he⟩ := ih h2
      exact ⟨p, List.mem_cons_of_mem _ hp, he⟩

theorem attachScores_length (i : Nat) (l : List (Document × Int)) :
    (attachScores i l).length = l.length := by
  induction l generalizing i with
  | nil => rfl
  | cons x xs ih =>
    obtain ⟨doc, s⟩ := x
    rw [attachScores]
    simp [ih]

theorem attachScores_pairwise (i : Nat) (l : List (Document × Int))
    (h : l.Pairwise (fun a b => b.2 ≤ a.2)) :
    (attachScores i l).Pairwise (fun d1 d2 => rerankScoreOf d2 ≤ rerankScoreOf d1) := by
  induction l generalizing i with
  | nil => simp [attachScores]
  | cons x xs ih =>
    obtain ⟨doc, s⟩ := x
    rcases List.pairwise_cons.mp h with ⟨hx, hxs⟩
    rw [attachScores]
    refine List.pairwise_cons.mpr ⟨?_, ih (i + 1) hxs⟩
    intro d2 hd2
    obtain ⟨p, hp, he⟩ := mem_attachScores hd2
    rw [rerankScoreOf_attach]
    unfold rerankScoreOf
    rw [he]
    exact hx p hp

/-- Counterexample for C6: on an empty candidate list the source still
constructs the CrossEncoder and calls predict on the empty pair list — the
returned invocation flag is true, refuting the claim that the empty list is
returned without invoking the underlying model. -/
theorem rerank_documents_empty_still_invokes_model :
    rerank_documents (some (fun _ _ => (0 : Int))) "query" [] 5 = ([], true) := rfl

/-- Claim C6 (amended): with the cross-encoder available,
rerank_documents(query, docs, n) returns a list of length min(n, len(docs))
whose elements all carry a rerank_score in their metadata, sorted
non-increasingly by that score (Python's sort is stable, so equal scores
keep their retrieval order and the order is strict only when scores are
pairwise distinct); the empty candidate list yields the empty list, but the
cross-encoder is invoked regardless (on an empty batch). -/
theorem rerank_documents_properties (predict : String → String → Int) (query : String)
    (documents : List Document) (top_n : Nat) :
    (rerank_documents (some predict) query documents top_n).1.length
        = min top_n documents.length
  ∧ (rerank_documents (some predict) query documents top_n).2 = true
  ∧ ((rerank_documents (some predict) query documents top_n).1).Pairwise
      (fun d1 d2 => rerankScoreOf d2 ≤ rerankScoreOf d1)
  ∧ (∀ d ∈ (rerank_documents (some predict) query documents top_n).1,
      (Document.metaInt d "rerank_score").isSome)
  ∧ (documents = [] → (rerank_documents (some predict) query documents top_n).1 = []) := by
  refine ⟨?_, rfl, ?_, ?_, ?_⟩
  · show (attachScores 0 ((sortDesc _).take top_n)).length = _
    rw [attachScores_length, List.length_take, sortDesc_length, List.length_zip]
    simp
  · show (attachScores 0 ((sortDesc _).take top_n)).Pairwise _
    exact attachScores_pairwise 0 _
      (List.Pairwise.sublist (List.take_sublist _ _) (sortDesc_pairwise _))
  · intro d hd
    obtain ⟨p, _, he⟩ := mem_attachScores hd
    rw [he]
    rfl
  · intro h
    subst h
    show attachScores 0 ((sortDesc (List.zip [] _)).take top_n) = []
    rw [show sortDesc (List.zip ([] : List Document) _) = [] from rfl, List.take_nil]
    rfl

/-- Witness for C6: applying the theorem at a concrete two-candidate input,
its empty-input conclusion at the empty input, and checking the remaining
conclusions concretely. -/
theorem rerank_documents_properties_witness :
    (rerank_documents (some (fun _ c => (c.length : Int))) "q"
      [{ page_content := "aa", metadata := [] }, { page_content := "bbb", metadata := [] }]
      1).1.length = 1
  ∧ (rerank_documents (some (fun _ _ => (7 : Int))) "q" [] 9).1 = [] := by
  constructor
  · have h := (rerank_documents_properties (fun _ c => (c.length : Int)) "q"
      [{ page_content := "aa", metadata := [] }, { page_content := "bbb", metadata := [] }] 1).1
    simpa using h
  · exact (rerank_documents_properties (fun _ _ => (7 : Int)) "q" [] 9).2.2.2.2 rfl

end Retrieval

namespace ValidateLoad

theorem asFields_error {j : PyJson} {e : StatusExc} (h : asFields j = .error e) :
    e = .generic "AttributeError: object has no attribute get" := by
  cases j <;> simp [asFields] at h <;> exact h.symm

theorem processRecord_result (rag : PyJson → List (String × PyJson)) (now : Int)
    (data : PyJson) :
    (∃ b, processRecord rag now data = .ok b) ∨
    processRecord rag now data =
      .error (.generic "AttributeError: object has no attribute get") := by
  unfold processRecord
  cases h0 : asFields data with
  | error e => right; rw [asFields_error h0]
  | ok fields =>
    dsimp only
    by_cases h1 : (((PyJson.lookupField fields "success").getD .null).truthy &&
        ((PyJson.lookupField fields "data").getD .null).truthy) = true
    · rw [if_pos h1]
      cases h2 : asFields ((PyJson.lookupField fields "data").getD .null) with
      | error e => right; rw [asFields_error h2]
      | ok dataFields =>
        dsimp only
        cases h3 : asFields ((PyJson.lookupField dataFields "collection_info").getD (.obj [])) with
        | error e => right; rw [asFields_error h3]
        | ok ciFields =>
          dsimp only
          by_cases h4 : ((PyJson.lookupField ciFields "name").getD .null).truthy = true
          · rw [if_pos h4]
            cases h5 : asFields ((PyJson.lookupField dataFields "rag_status").getD (.obj [])) with
            | error e => right; rw [asFields_error h5]
            | ok rsFields => dsimp only; left; exact ⟨_, rfl⟩
          · rw [if_neg h4]
            left; exact ⟨_, rfl⟩
    · rw [if_neg h1]
      left; exact ⟨_, rfl⟩

theorem processRecord_time_free (rag : PyJson → List (String × PyJson)) (t1 t2 : Int)
    (data : PyJson) (h : enriches data = false) :
    processRecord rag t1 data = processRecord rag t2 data := by
  unfold processRecord
  cases data with
  | null => rfl
  | bool b => rfl
  | num n => rfl
  | str s => rfl
  | arr l => rfl
  | obj fields =>
    simp only [enriches] at h
    simp only [asFields]
    by_cases h1 : (((PyJson.lookupField fields "success").getD .null).truthy &&
        ((PyJson.lookupField fields "data").getD .null).truthy) = true
    · rw [if_pos h1, if_pos h1]
      rw [h1, Bool.true_and] at h
      cases hd : (PyJson.lookupField fields "data").getD .null with
      | obj dataFields =>
        rw [hd] at h
        dsimp only at h ⊢
        cases hc : (PyJson.lookupField dataFields "collection_info").getD (.obj []) with
        | obj ciFields =>
          rw [hc] at h
          dsimp only at h ⊢
          rw [if_neg (by simp [h]), if_neg (by simp [h])]
        | null => rfl
        | bool b => rfl
        | num n => rfl
        | str s => rfl
        | arr l => rfl
      | null => rfl
      | bool b => rfl
      | num n => rfl
      | str s => rfl
      | arr l => rfl
    · rw [if_neg h1, if_neg h1]

/-- Counterexample for C2: the job identifier consisting of one space is
non-empty and has no record file (the store is empty), yet the endpoint
answers 400, not the 404 the claim requires. -/
theorem validate_load_whitespace_id_returns_400 :
    validate_load (fun _ => .absent) (fun _ => []) 0 " " =
      .err 400 "El processing_id es requerido"
  ∧ httpCode (validate_load (fun _ => .absent) (fun _ => []) 0 " ") ≠ 404 := by
  exact ⟨rfl, by decide⟩

/-- Claim C2 (amended): for every job-status request whose identifier is
non-empty after stripping whitespace (whitespace-only identifiers are
rejected with 400): an absent record file maps to HTTP 404, a record file
that cannot be parsed as JSON maps to HTTP 422, and a parseable record
yields either the 200 body or, on any other unexpected error while
enriching it, HTTP 500. -/
theorem validate_load_status_mapping (store : String → FileState)
    (rag : PyJson → List (String × PyJson)) (now : Int) (pid : String)
    (h : Py.strip pid ≠ "") :
    (store pid = .absent →
      validate_load store rag now pid = .err 404 "El processing_id no existe")
  ∧ (store pid = .corrupt →
      validate_load store rag now pid = .err 422 "Archivo JSON corrupto")
  ∧ (∀ j, store pid = .valid j →
      httpCode (validate_load store rag now pid) = 200 ∨
      httpCode (validate_load store rag now pid) = 500) := by
  have hcond : ¬(pid = "" ∨ Py.strip pid = "") := by
    rintro (rfl | hs)
    · exact h rfl
    · exact h hs
  refine ⟨?_, ?_, ?_⟩
  · intro ha
    unfold validate_load validate_processing_with_rag
    rw [if_neg hcond, ha]
  · intro ha
    unfold validate_load validate_processing_with_rag
    rw [if_neg hcond, ha]
  · intro j hj
    unfold validate_load validate_processing_with_rag
    rw [if_neg hcond, hj]
    dsimp only
    rcases processRecord_result rag now j with ⟨b, hb⟩ | hb
    · rw [hb]; left; rfl
    · rw [hb]; right; rfl

/-- Witness for C2: a concrete unknown id over an empty log directory gets
404. -/
theorem validate_load_status_mapping_witness :
    validate_load (fun _ => .absent) (fun _ => []) 0 "proc_missing" =
      .err 404 "El processing_id no existe" :=
  (validate_load_status_mapping (fun _ => .absent) (fun _ => []) 0 "proc_missing"
    (by decide)).1 rfl

/-- Counterexample for C3: for a terminal success record that is unchanged
between the two calls, the two status responses differ — each call stamps
its own validated_at clock reading into the body. -/
theorem validate_load_second_call_differs :
    validate_load demoStore (fun _ => []) 1 "proc_demo" ≠
    validate_load demoStore (fun _ => []) 2 "proc_demo" := by
  intro hcontra
  have h2 := congrArg validatedAtOf hcontra
  rw [show validatedAtOf (validate_load demoStore (fun _ => []) 1 "proc_demo")
        = some 1 from rfl,
      show validatedAtOf (validate_load demoStore (fun _ => []) 2 "proc_demo")
        = some 2 from rfl] at h2
  exact absurd h2 (by decide)

/-- Claim C3 (amended): the status operation is idempotent exactly on the
records it does not enrich — in particular every FAILED terminal record
(success is false, data is null): for those, two calls at different clock
readings return identical responses. For success records naming a
collection the operation stamps a fresh validated_at reading and re-reads
live RAG state, so byte-identical responses are only guaranteed when clock
and RAG state coincide. -/
theorem validate_load_time_free_without_enrichment (store : String → FileState)
    (rag : PyJson → List (String × PyJson)) (t1 t2 : Int) (pid : String)
    (j : PyJson) (h1 : store pid = .valid j) (h2 : enriches j = false) :
    validate_load store rag t1 pid = validate_load store rag t2 pid := by
  unfold validate_load
  by_cases hc : pid = "" ∨ Py.strip pid = ""
  · rw [if_pos hc, if_pos hc]
  · rw [if_neg hc, if_neg hc]
    unfold validate_processing_with_rag
    rw [h1]
    dsimp only
    rw [processRecord_time_free rag t1 t2 j h2]

/-- Witness for C3: a concrete FAILED record read at two different times
yields the same response. -/
theorem validate_load_time_free_witness :
    validate_load (fun _ => .valid (.obj [("success", .bool false), ("data", .null)]))
      (fun _ => []) 1 "proc_f" =
    validate_load (fun _ => .valid (.obj [("success", .bool false), ("data", .null)]))
      (fun _ => []) 2 "proc_f" :=
  validate_load_time_free_without_enrichment
    (fun _ => .valid (.obj [("success", .bool false), ("data", .null)]))
    (fun _ => []) 1 2 "proc_f" (.obj [("success", .bool false), ("data", .null)]) rfl rfl

end ValidateLoad

namespace Generation

/-- Counterexample for C4: a Generator on the Google path that receives an
empty context-fragment list still invokes the primary model, and returns
whatever the model answered rather than a fixed insufficient-information
string. -/
theorem generate_response_empty_context_invokes_primary :
    (generate_response (fun _ => .ok "X") { use_local := false, llm := true } "q" []).primaryInvoked
      = true
  ∧ (generate_response (fun _ => .ok "X") { use_local := false, llm := true } "q" []).result.answer
      = "X" :=
  ⟨rfl, rfl⟩

/-- Counterexample for C5: when the primary model returns the empty string,
the service does not substitute the fallback model — use_local stays false
and the local generator is never invoked; the call returns the structured
error dict instead. -/
theorem generate_response_empty_answer_keeps_primary :
    (generate_response (fun _ => .ok "") { use_local := false, llm := true } "q"
      [docDemo]).state.use_local = false
  ∧ (generate_response (fun _ => .ok "") { use_local := false, llm := true } "q"
      [docDemo]).localInvoked = false
  ∧ (generate_response (fun _ => .ok "") { use_local := false, llm := true } "q"
      [docDemo]).result.answer = "Error generando respuesta: Google AI devolvió respuesta vacía" :=
  ⟨rfl, rfl, rfl⟩

/-- Claim C5 (amended): an empty (or whitespace-only) primary response is
treated as a generation error — ValueError("Google AI devolvió respuesta
vacía") — and the service returns the well-formed structured error result
rather than raising; but it does not substitute the fallback model: the
instance state is unchanged and the local generator is not invoked
(fallback substitution happens only for quota/429 exceptions). -/
theorem generate_response_empty_answer_error_result (primary : String → Except String String)
    (st : GenState) (question : String) (docs : List Document) (ans : String)
    (h1 : st.use_local = false) (h2 : st.llm = true)
    (h3 : primary (full_message question docs) = .ok ans) (h4 : Py.strip ans = "") :
    (generate_response primary st question docs).result.answer =
      "Error generando respuesta: Google AI devolvió respuesta vacía"
  ∧ (generate_response primary st question docs).state = st
  ∧ (generate_response primary st question docs).localInvoked = false := by
  unfold generate_response
  rw [h1, h2, if_neg (by decide : ¬((false || !true) = true)), h3]
  dsimp only
  rw [if_pos h4]
  have hq : (Py.containsSub (Py.lower "Google AI devolvió respuesta vacía") "quota" ||
      Py.containsSub "Google AI devolvió respuesta vacía" "429") = false := rfl
  unfold handleGenExc
  rw [if_neg (by rw [hq]; exact Bool.false_ne_true)]
  exact ⟨rfl, rfl, rfl⟩

/-- Witness for C5 (amended): a concrete empty primary response yields the
error result with the state unchanged. -/
theorem generate_response_empty_answer_error_result_witness :
    (generate_response (fun _ => .ok "") { use_local := false, llm := true } "w" []).result.answer =
      "Error generando respuesta: Google AI devolvió respuesta vacía"
  ∧ (generate_response (fun _ => .ok "") { use_local := false, llm := true } "w" []).state =
      { use_local := false, llm := true }
  ∧ (generate_response (fun _ => .ok "") { use_local := false, llm := true } "w" []).localInvoked =
      false :=
  generate_response_empty_answer_error_result (fun _ => .ok "")
    { use_local := false, llm := true } "w" [] "" rfl rfl rfl rfl

end Generation

namespace Ask

/-- Claim C4 (amended): the empty-context fast path is implemented by the
query orchestrator, not the Generator: when retrieval returns no documents,
basic_rag_processing returns the fixed insufficient-information answer with
empty files and context, without ever calling the Generator (the Generator
itself, handed an empty fragment list, would invoke its backing model — see
the counterexample). -/
theorem basic_rag_empty_retrieval_fast_path (o : RagOracles) (question : String)
    (top_k : Int) (collection : String) (fr ur uqr : Bool)
    (hinit : o.init = .ok ())
    (hsearch : o.similarity_search (if uqr then o.rewrite_query question else question)
        (if collection = "" then "default" else collection) top_k = .ok []) :
    (basic_rag_processing o question top_k collection fr ur uqr).response.answer =
      "No tengo información suficiente en la base de datos para responder a esta pregunta."
  ∧ (basic_rag_processing o question top_k collection fr ur uqr).trace.genQuestions = []
  ∧ (basic_rag_processing o question top_k collection fr ur uqr).response.files_consulted = []
  ∧ (basic_rag_processing o question top_k collection fr ur uqr).response.context_docs = [] := by
  unfold basic_rag_processing
  rw [hinit]
  dsimp only
  rw [hsearch]
  exact ⟨rfl, rfl, rfl, rfl⟩

/-- Witness for C4 (amended): concrete empty retrieval produces the fixed
answer. -/
theorem basic_rag_empty_retrieval_fast_path_witness :
    (basic_rag_processing demoOracles "q" 5 "default" false false false).response.answer =
      "No tengo información suficiente en la base de datos para responder a esta pregunta."
  ∧ (basic_rag_processing demoOracles "q" 5 "default" false false false).trace.genQuestions = [] :=
  ⟨(basic_rag_empty_retrieval_fast_path demoOracles "q" 5 "default" false false false rfl rfl).1,
   (basic_rag_empty_retrieval_fast_path demoOracles "q" 5 "default" false false false rfl rfl).2.1⟩

/-- Claim C7: for every query request and every collaborator behaviour,
retrieval is performed exactly with final_query — the rewritten query when
use_query_rewriting is true, the original question otherwise — while every
generation call receives the original question, never final_query. -/
theorem basic_rag_query_routing (o : RagOracles) (question : String) (top_k : Int)
    (collection : String) (fr ur uqr : Bool) :
    ((basic_rag_processing o question top_k collection fr ur uqr).trace.searchQueries.all
      (fun s => s == (if uqr then o.rewrite_query question else question)) = true)
  ∧ ((basic_rag_processing o question top_k collection fr ur uqr).trace.genQuestions.all
      (fun s => s == question) = true)
  ∧ (o.init = .ok () →
      (basic_rag_processing o question top_k collection fr ur uqr).trace.searchQueries =
        [if uqr then o.rewrite_query question else question]) := by
  unfold basic_rag_processing ragErrorRun
  cases hi : o.init with
  | error m => exact ⟨rfl, rfl, by intro hc; exact absurd hc (by simp)⟩
  | ok u =>
    dsimp only
    cases hs : o.similarity_search (if uqr then o.rewrite_query question else question)
        (if collection = "" then "default" else collection) top_k with
    | error m => exact ⟨by simp, rfl, fun _ => rfl⟩
    | ok docs =>
      dsimp only
      cases docs with
      | nil =>
        rw [if_pos (show ([] : List Document).isEmpty = true from rfl)]
        exact ⟨by simp, rfl, fun _ => rfl⟩
      | cons d ds =>
        rw [if_neg (show ¬((d :: ds).isEmpty = true) by simp)]
        cases ur with
        | false =>
          rw [if_neg Bool.false_ne_true]
          dsimp only
          cases hg : o.generate_response question (d :: ds) with
          | error m => exact ⟨by simp, by simp, fun _ => rfl⟩
          | ok gen => exact ⟨by simp, by simp, fun _ => rfl⟩
        | true =>
          rw [if_pos (show (true = true) from rfl)]
          cases hr : o.rerank_documents (if uqr then o.rewrite_query question else question)
              (d :: ds) top_k with
          | error m => dsimp only [Except.map]; exact ⟨by simp, rfl, fun _ => rfl⟩
          | ok docs2 =>
            dsimp only [Except.map]
            cases hg : o.generate_response question docs2 with
            | error m => exact ⟨by simp, by simp, fun _ => rfl⟩
            | ok gen => exact ⟨by simp, by simp, fun _ => rfl⟩

/-- Witness for C7: with rewriting enabled on concrete oracles, retrieval
was called once with the (identity-)rewritten question. -/
theorem basic_rag_query_routing_witness :
    (basic_rag_processing demoOracles "q" 5 "default" false false true).trace.searchQueries =
      ["q"] :=
  (basic_rag_query_routing demoOracles "q" 5 "default" false false true).2.2 rfl

end Ask

namespace Ask

theorem basic_rag_caught_shape (o : RagOracles) (question : String) (top_k : Int)
    (collection : String) (fr ur uqr : Bool) (m : String)
    (h : (basic_rag_processing o question top_k collection fr ur uqr).trace.caught = some m) :
    (basic_rag_processing o question top_k collection fr ur uqr).response.answer =
      "Error procesando la consulta: " ++ m
  ∧ (basic_rag_processing o question top_k collection fr ur uqr).response.files_consulted = []
  ∧ (basic_rag_processing o question top_k collection fr ur uqr).response.context_docs = [] := by
  revert h
  unfold basic_rag_processing ragErrorRun
  cases hi : o.init with
  | error m0 =>
    dsimp only
    intro h
    obtain rfl : m0 = m := Option.some.inj h
    exact ⟨rfl, rfl, rfl⟩
  | ok u =>
    dsimp only
    cases hs : o.similarity_search (if uqr then o.rewrite_query question else question)
        (if collection = "" then "default" else collection) top_k with
    | error m0 =>
      dsimp only
      intro h
      obtain rfl : m0 = m := Option.some.inj h
      exact ⟨rfl, rfl, rfl⟩
    | ok docs =>
      dsimp only
      cases docs with
      | nil =>
        rw [if_pos (show ([] : List Document).isEmpty = true from rfl)]
        intro h
        exact absurd h (by simp)
      | cons d ds =>
        rw [if_neg (show ¬((d :: ds).isEmpty = true) by simp)]
        cases ur with
        | false =>
          rw [if_neg Bool.false_ne_true]
          dsimp only
          cases hg : o.generate_response question (d :: ds) with
          | error m0 =>
            dsimp only
            intro h
            obtain rfl : m0 = m := Option.some.inj h
            exact ⟨rfl, rfl, rfl⟩
          | ok gen =>
            dsimp only
            intro h
            exact absurd h (by simp)
        | true =>
          rw [if_pos (show (true = true) from rfl)]
          cases hr : o.rerank_documents (if uqr then o.rewrite_query question else question)
              (d :: ds) top_k with
          | error m0 =>
            dsimp only [Except.map]
            intro h
            obtain rfl : m0 = m := Option.some.inj h
            exact ⟨rfl, rfl, rfl⟩
          | ok docs2 =>
            dsimp only [Except.map]
            cases hg : o.generate_response question docs2 with
            | error m0 =>
              dsimp only
              intro h
              obtain rfl : m0 = m := Option.some.inj h
              exact ⟨rfl, rfl, rfl⟩
            | ok gen =>
              dsimp only
              intro h
              exact absurd h (by simp)

/-- Claim C10: for every /ask request passing the non-empty-question check
and every collaborator behaviour, the endpoint returns the HTTP 200
structured body (never its 500 branch); and whenever an exception was
raised inside the pipeline — service initialization, retrieval, reranking
or generation — the body's answer is the error message with empty
files_consulted and context_docs. -/
theorem ask_pipeline_errors_return_structured_200 (o : RagOracles) (payload : AskRequest)
    (h : Py.strip payload.question ≠ "") :
    ∃ run, ask o payload = .ok run ∧
      (∀ m, run.trace.caught = some m →
        run.response.answer = "Error procesando la consulta: " ++ m ∧
        run.response.files_consulted = [] ∧
        run.response.context_docs = []) := by
  have hcond : ¬(payload.question = "" ∨ Py.strip payload.question = "") := by
    rintro (he | hs)
    · exact h (by rw [he]; rfl)
    · exact h hs
  refine ⟨basic_rag_processing o (Py.strip payload.question) (pyOrInt payload.top_k 5)
    (pyOrStr payload.collection "default") (pyOrBool payload.force_rebuild false)
    (pyOrBool payload.use_reranking false) (pyOrBool payload.use_query_rewriting false),
    ?_, ?_⟩
  · unfold ask
    rw [if_neg hcond]
  · intro m hm
    exact basic_rag_caught_shape o _ _ _ _ _ _ m hm

/-- Witness for C10: under oracles whose service initialization raises, a
concrete request still gets a 200 body with the error shape. -/
theorem ask_pipeline_errors_witness :
    ∃ run, ask failingInitOracles { question := "q" } = .ok run ∧
      (∀ m, run.trace.caught = some m →
        run.response.answer = "Error procesando la consulta: " ++ m ∧
        run.response.files_consulted = [] ∧
        run.response.context_docs = []) :=
  ask_pipeline_errors_return_structured_200 failingInitOracles { question := "q" } (by decide)

/-- Counterexample for C8: a request with the non-positive top_k of -1 is
not rejected — the endpoint processes it, handing -1 straight to the
pipeline. -/
theorem ask_negative_top_k_processed :
    ask demoOracles { question := "q", top_k := some (-1) } =
      .ok (basic_rag_processing demoOracles "q" (-1) "default" false false false) := rfl

/-- Claim C8 (amended): an empty or whitespace-only question is rejected
with HTTP 400; top_k, however, is never validated: a missing or zero top_k
is silently replaced by the default 5 by Python's `or`, and every other
value — including negative ones — is passed to processing unchanged, so a
request with non-positive top_k is processed rather than rejected. -/
theorem ask_validation_amended (o : RagOracles) (payload : AskRequest) :
    (Py.strip payload.question = "" →
      ask o payload = .badRequest "La pregunta es requerida y no puede estar vacía")
  ∧ (Py.strip payload.question ≠ "" →
      ask o payload = .ok (basic_rag_processing o (Py.strip payload.question)
        (pyOrInt payload.top_k 5) (pyOrStr payload.collection "default")
        (pyOrBool payload.force_rebuild false) (pyOrBool payload.use_reranking false)
        (pyOrBool payload.use_query_rewriting false)))
  ∧ (∀ k : Int, pyOrInt (some k) 5 = if k = 0 then 5 else k) := by
  refine ⟨?_, ?_, fun k => rfl⟩
  · intro hs
    unfold ask
    rw [if_pos (Or.inr hs)]
  · intro hs
    have hcond : ¬(payload.question = "" ∨ Py.strip payload.question = "") := by
      rintro (he | h2)
      · exact hs (by rw [he]; rfl)
      · exact hs h2
    unfold ask
    rw [if_neg hcond]

/-- Witness for C8 (amended): a whitespace-only question is rejected with
400, and a concrete negative top_k value passes through unreplaced. -/
theorem ask_validation_amended_witness :
    ask demoOracles { question := " " } =
      .badRequest "La pregunta es requerida y no puede estar vacía"
  ∧ pyOrInt (some (-3)) 5 = -3 := by
  constructor
  · exact (ask_validation_amended demoOracles { question := " " }).1 rfl
  · rw [(ask_validation_amended demoOracles { question := " " }).2.2 (-3)]
    decide

end Ask
